import Mathlib

/-!
# Rockchip cpufreq driver (`drivers/cpufreq/rockchip-cpufreq.c`)

A shallow embedding of the frequency-table helper, the access gate and
battery limiter of `cpufreq_target`, and the deep-suspend register
snapshot/restore sequence, together with the properties established
about them.

Conventions of the embedding:
* `unsigned int` / `u32` values are natural numbers, reduced modulo `2^32`
  wherever the C arithmetic can wrap;
* collaborators that live outside the driver (table search, the dvfs rate
  setter, the clock framework, the boot clock, the battery query, the
  memory-mapped registers) are parameters of the embedded functions.
-/

namespace RockchipCpufreq

/-! ## Frequency table -/

/-- One row of a cpufreq frequency table (`struct cpufreq_frequency_table`). -/
structure cpufreq_frequency_table where
  index : Nat
  frequency : Nat
  deriving DecidableEq

/-- The loop of `get_freq_from_table`: walks the array up to the first row whose
frequency is the end marker `table_end` (`CPUFREQ_TABLE_END`, declared in
`linux/cpufreq.h`), carrying the local `target_freq`. -/
def get_freq_from_table_loop (table_end max_freq : Nat) :
    List cpufreq_frequency_table → Nat → Nat
  | [], target_freq => target_freq
  | e :: rest, target_freq =>
    if e.frequency = table_end then target_freq
    else
      get_freq_from_table_loop table_end max_freq rest
        (if e.frequency ≤ max_freq ∧ target_freq < e.frequency then e.frequency
         else target_freq)

/-- The function `get_freq_from_table(max_freq)` over the array `freq_table`. -/
def get_freq_from_table (table_end : Nat) (freq_table : List cpufreq_frequency_table)
    (max_freq : Nat) : Nat :=
  let target_freq := get_freq_from_table_loop table_end max_freq freq_table 0
  if target_freq = 0 then max_freq else target_freq

/-- The tabulated frequencies: those of the rows before the end marker. -/
def table_freqs (table_end : Nat) : List cpufreq_frequency_table → List Nat
  | [] => []
  | e :: rest => if e.frequency = table_end then [] else e.frequency :: table_freqs table_end rest

/-- The value `r` is the largest member of `fs` that does not exceed `max_freq`. -/
def IsLargestNotExceeding (fs : List Nat) (max_freq r : Nat) : Prop :=
  r ∈ fs ∧ r ≤ max_freq ∧ ∀ f ∈ fs, f ≤ max_freq → f ≤ r

/-- A table with the given frequencies, closed by the end marker. -/
def mk_table (table_end : Nat) (fs : List Nat) : List cpufreq_frequency_table :=
  fs.map (fun f => { index := 0, frequency := f }) ++ [{ index := 0, frequency := table_end }]

/-- The static array `default_freq_table`, closed by the end marker. -/
def default_freq_table (table_end : Nat) : List cpufreq_frequency_table :=
  [ { frequency := 312 * 1000, index := 875 * 1000 },
    { frequency := 504 * 1000, index := 925 * 1000 },
    { frequency := 816 * 1000, index := 975 * 1000 },
    { frequency := 1008 * 1000, index := 1075 * 1000 },
    { frequency := 1200 * 1000, index := 1150 * 1000 },
    { frequency := 1416 * 1000, index := 1250 * 1000 },
    { frequency := 1608 * 1000, index := 1350 * 1000 },
    { frequency := table_end, index := 0 } ]

/-! ## Machine integers and constants -/

/-- Conversion of a C `int` to `unsigned int` (reduction modulo `2^32`). -/
def to_u32 (x : Int) : Nat := (x % 2 ^ 32).toNat

/-- Bitwise complement of an `unsigned int`. -/
def not_u32 (x : Nat) : Nat := 0xFFFFFFFF ^^^ (x % 2 ^ 32)

def DISABLE_FURTHER_CPUFREQ : Nat := 0x10
def ENABLE_FURTHER_CPUFREQ : Nat := 0x20
def MASK_FURTHER_CPUFREQ : Nat := 0x30
def CPUFREQ_PRIVATE : Nat := 0x100

/-- The static `low_battery_capacity` (5 %); the driver never assigns it. -/
def low_battery_capacity : Nat := 5

/-- Modelled from the spec: the constant `MSEC_PER_SEC` of `linux/time.h`, which is not
part of the driver file; the boot window of the battery limiter is 60 seconds, counted
in milliseconds. -/
def MSEC_PER_SEC : Int := 1000

/-- Modelled from the spec: the errno constant `EINVAL` of `linux/errno.h`, which is not
part of the driver file; its negation is the code returned for a denied request
(AccessDenied) and for a missing table. -/
def EINVAL : Int := 22

/-! ## Governor test and battery limiter -/

/-- The part of `struct cpufreq_governor` the driver reads: the name, up to its NUL. -/
structure cpufreq_governor where
  name : String

/-- The part of `struct cpufreq_policy` the driver reads; `none` is a NULL governor. -/
structure cpufreq_policy where
  governor : Option cpufreq_governor

/-- The function `cpufreq_is_ondemand(policy)`; `none` is a NULL policy. -/
def cpufreq_is_ondemand (policy : Option cpufreq_policy) : Bool :=
  let c : Char :=
    match policy with
    | some p =>
      match p.governor with
      | some g => g.name.data.headD (Char.ofNat 0)
      | none => Char.ofNat 0
    | none => Char.ofNat 0
  c == 'o' || c == 'i' || c == 'c' || c == 'h'

/-- The function `cpufreq_scale_limit(target_freq, policy, is_private)`. The statics
`is_booting` and `low_battery_freq` come in as arguments, `boottime_ms` is
`ktime_to_ms(ktime_get_boottime())` and `battery_capacity` is what
`rk_get_system_battery_capacity()` returns. The result is the returned frequency
together with the value of `is_booting` after the call. -/
def cpufreq_scale_limit (is_booting : Bool) (low_battery_freq : Nat)
    (boottime_ms battery_capacity : Int)
    (target_freq : Nat) (policy : Option cpufreq_policy) (_is_private : Bool) : Nat × Bool :=
  let is_ondemand := cpufreq_is_ondemand policy
  if !is_ondemand then (target_freq, is_booting)
  else if is_booting then
    if boottime_ms > 60 * MSEC_PER_SEC then (target_freq, false)
    else if target_freq > low_battery_freq ∧
        to_u32 battery_capacity ≤ low_battery_capacity then (low_battery_freq, is_booting)
    else (target_freq, is_booting)
  else (target_freq, is_booting)

/-! ## The CPU clock, its observers and `cpufreq_target` -/

/-- What the clock and the transition observers see. -/
inductive Event where
  | prechange (cpu old new : Nat)
  | clk_set_rate (rate : Nat)
  | postchange (cpu old new : Nat)
  deriving DecidableEq

/-- The clock behind `clk_cpu_dvfs_node`: its rate in Hz and the events so far,
oldest first. -/
structure Clock where
  rate : Nat
  log : List Event
  deriving DecidableEq

/-- The function `cpufreq_get_rate(cpu)`; the argument is the clock of
`clk_cpu_dvfs_node`, `none` when the node pointer is NULL. -/
def cpufreq_get_rate (clk_cpu_dvfs_node : Option Clock) : Nat :=
  match clk_cpu_dvfs_node with
  | some clk => (clk.rate % 2 ^ 32) / 1000
  | none => 0

/-- The function `cpufreq_scale_rate_for_dvfs(clk, rate)`, the callback the driver registers
with the dvfs layer. `clk_set_rate` is the clock framework's setter (new rate in Hz and
return code) and `online_cpus` what `for_each_online_cpu` enumerates. -/
def cpufreq_scale_rate_for_dvfs (clk_set_rate : Nat → Nat → Nat × Int) (online_cpus : List Nat)
    (clk : Clock) (rate : Nat) : Clock × Int :=
  let freqs_new := rate / 1000
  let freqs_old := clk.rate / 1000
  let log := clk.log ++ online_cpus.map (fun cpu => Event.prechange cpu freqs_old freqs_new)
  let (hw_rate, ret) := clk_set_rate clk.rate rate
  let log := log ++ [Event.clk_set_rate rate]
  let freqs_new := hw_rate / 1000
  let log := log ++ online_cpus.map (fun cpu => Event.postchange cpu freqs_old freqs_new)
  ({ rate := hw_rate, log := log }, ret)

/-- The driver's statics that `cpufreq_target` reads or writes, and the CPU clock. -/
structure DriverState where
  freq_table : Option (List cpufreq_frequency_table)
  no_cpufreq_access : Nat
  is_booting : Bool
  low_battery_freq : Nat
  clk : Clock

/-- The state the static initialisers give, over a clock. -/
def initial_state (table_end : Nat) (clk : Clock) : DriverState :=
  { freq_table := some (default_freq_table table_end)
    no_cpufreq_access := 0
    is_booting := true
    low_battery_freq := 600 * 1000
    clk := clk }

/-- The line `low_battery_freq = get_freq_from_table(low_battery_freq)` of
`cpufreq_init_cpu0`, over the table in use. -/
def init_low_battery_freq (table_end : Nat) (s : DriverState) : DriverState :=
  match s.freq_table with
  | some table =>
    { s with low_battery_freq := get_freq_from_table table_end table s.low_battery_freq }
  | none => s

/-- The collaborators of one `cpufreq_target` call.
* `table_target target_freq relation` is `cpufreq_frequency_table_target`: its return
  code and the index it stores;
* `dvfs_clk_set_rate clk rate` is the dvfs rate setter: the clock afterwards and its
  return code;
* `boottime_ms` and `battery_capacity` are the readings `cpufreq_scale_limit` takes. -/
structure Collaborators where
  table_target : Nat → Nat → Int × Nat
  dvfs_clk_set_rate : Clock → Nat → Clock × Int
  boottime_ms : Int
  battery_capacity : Int

/-- Which `return`/`goto out` a call of `cpufreq_target` left by. -/
inductive Exit where
  | no_table
  | denied
  | no_match
  | unchanged
  | rate_set
  deriving DecidableEq

/-- Outcome of `cpufreq_target`: return code, the exit taken, the final value of the
local `new_freq`, and the driver state afterwards. -/
structure TargetResult where
  ret : Int
  exit : Exit
  new_freq : Nat
  state : DriverState

/-- The function `cpufreq_target(policy, target_freq, relation)`. -/
def cpufreq_target (env : Collaborators) (s : DriverState) (policy : Option cpufreq_policy)
    (target_freq relation : Nat) : TargetResult :=
  match s.freq_table with
  | none => { ret := -EINVAL, exit := .no_table, new_freq := target_freq, state := s }
  | some table =>
    let is_private : Bool := decide (relation &&& CPUFREQ_PRIVATE ≠ 0)
    let relation := relation &&& not_u32 CPUFREQ_PRIVATE
    let access :=
      if relation &&& ENABLE_FURTHER_CPUFREQ ≠ 0 ∧ s.no_cpufreq_access ≠ 0
      then s.no_cpufreq_access - 1 else s.no_cpufreq_access
    if access ≠ 0 then
      { ret := -EINVAL, exit := .denied, new_freq := target_freq,
        state := { s with no_cpufreq_access := access } }
    else
      let access :=
        if relation &&& DISABLE_FURTHER_CPUFREQ ≠ 0 then (access + 1) % 2 ^ 32 else access
      let relation := relation &&& not_u32 MASK_FURTHER_CPUFREQ
      let found := env.table_target target_freq relation
      if found.1 ≠ 0 then
        { ret := found.1, exit := .no_match, new_freq := target_freq,
          state := { s with no_cpufreq_access := access } }
      else
        let new_freq := ((table.get? found.2).map (fun e => e.frequency)).getD 0
        let limited :=
          if access = 0 then
            cpufreq_scale_limit s.is_booting s.low_battery_freq env.boottime_ms
              env.battery_capacity new_freq policy is_private
          else (new_freq, s.is_booting)
        let new_freq := limited.1
        let new_rate := (new_freq * 1000) % 2 ^ 32
        let cur_rate := s.clk.rate % 2 ^ 32
        if new_rate = cur_rate then
          { ret := found.1, exit := .unchanged, new_freq := new_freq,
            state := { s with no_cpufreq_access := access, is_booting := limited.2 } }
        else
          let set := env.dvfs_clk_set_rate s.clk new_rate
          { ret := set.2, exit := .rate_set, new_freq := new_freq,
            state := { s with no_cpufreq_access := access, is_booting := limited.2,
                              clk := set.1 } }

/-- One call of `cpufreq_target` with its collaborators and arguments. -/
structure Call where
  env : Collaborators
  policy : Option cpufreq_policy
  target_freq : Nat
  relation : Nat

/-- The call `c` made in state `s`. -/
def Call.run (c : Call) (s : DriverState) : TargetResult :=
  cpufreq_target c.env s c.policy c.target_freq c.relation

/-- The driver state after a sequence of `cpufreq_target` calls, first call first. -/
def run_calls (s : DriverState) : List Call → DriverState
  | [] => s
  | c :: cs => run_calls (c.run s).state cs

/-- The request carries `ENABLE_FURTHER_CPUFREQ`. -/
def carries_enable (relation : Nat) : Prop := relation &&& ENABLE_FURTHER_CPUFREQ ≠ 0

/-- The request carries `DISABLE_FURTHER_CPUFREQ`. -/
def carries_disable (relation : Nat) : Prop := relation &&& DISABLE_FURTHER_CPUFREQ ≠ 0

/-- The request carries `CPUFREQ_PRIVATE`. -/
def carries_private (relation : Nat) : Prop := relation &&& CPUFREQ_PRIVATE ≠ 0

instance (relation : Nat) : Decidable (carries_enable relation) := by
  unfold carries_enable; infer_instance

instance (relation : Nat) : Decidable (carries_disable relation) := by
  unfold carries_disable; infer_instance

instance (relation : Nat) : Decidable (carries_private relation) := by
  unfold carries_private; infer_instance

/-- The counter `no_cpufreq_access` after the Enable step of `cpufreq_target`. -/
def gate_after_enable (relation n : Nat) : Nat :=
  if carries_enable relation ∧ n ≠ 0 then n - 1 else n

/-- The counter `no_cpufreq_access` after the Disable step of `cpufreq_target`, from its
value `n` after the Enable step. -/
def gate_after_disable (relation n : Nat) : Nat :=
  if carries_disable relation then (n + 1) % 2 ^ 32 else n

/-- The `relation` argument `cpufreq_target` hands to the table search: the private and
the gate bits cleared. -/
def search_relation (relation : Nat) : Nat :=
  (relation &&& not_u32 CPUFREQ_PRIVATE) &&& not_u32 MASK_FURTHER_CPUFREQ

/-- The frequency `freq_table[i].frequency` of the row the table search found. -/
def found_frequency (env : Collaborators) (table : List cpufreq_frequency_table)
    (target_freq relation : Nat) : Nat :=
  ((table.get? (env.table_target target_freq (search_relation relation)).2).map
    (fun e => e.frequency)).getD 0

/-- A clock framework that sets exactly the requested rate and reports success. -/
def exact_clk_set_rate (_cur rate : Nat) : Nat × Int := (rate, 0)

/-- Collaborators for the examples: the table search answers with row `index`, the dvfs
setter runs the driver callback on two online cpus over `exact_clk_set_rate`. -/
def example_env (index : Nat) (boottime_ms battery_capacity : Int) : Collaborators :=
  { table_target := fun _ _ => (0, index)
    dvfs_clk_set_rate := cpufreq_scale_rate_for_dvfs exact_clk_set_rate [0, 1]
    boottime_ms := boottime_ms
    battery_capacity := battery_capacity }

/-- Collaborators whose table search fails with `-EINVAL` (no matching frequency). -/
def no_match_env : Collaborators :=
  { table_target := fun _ _ => (-EINVAL, 0)
    dvfs_clk_set_rate := cpufreq_scale_rate_for_dvfs exact_clk_set_rate [0, 1]
    boottime_ms := 1000
    battery_capacity := 100 }

/-- Collaborators whose table search answers with row `index` and whose dvfs setter
rejects the rate with `-EINVAL`, leaving the clock as it is. -/
def set_rate_failure_env (index : Nat) : Collaborators :=
  { table_target := fun _ _ => (0, index)
    dvfs_clk_set_rate := fun clk _ => (clk, -EINVAL)
    boottime_ms := 1000
    battery_capacity := 100 }

/-- A policy whose governor has the given name. -/
def policy_of (name : String) : Option cpufreq_policy :=
  some { governor := some { name := name } }

/-- An example call: row `index` is what the table search finds. -/
def example_call (index relation : Nat) : Call :=
  { env := example_env index 1000 100
    policy := policy_of "interactive"
    target_freq := 816000
    relation := relation }

/-! ## Deep-suspend register snapshot (`CONFIG_PM_WARP`) -/

/-- What the suspend/resume sequences do to the outside, in program order. Register
offsets are relative to `RK_CRU_VIRT`. -/
inductive IoEvent where
  | readl (offset : Nat)
  | writel (value offset : Nat)
  | clk_disable_dvfs
  | clk_enable_dvfs
  deriving DecidableEq

/-- The memory-mapped side of a run: how many register reads were made so far and the
events so far, oldest first. -/
structure Mmio where
  reads : Nat
  trace : List IoEvent
  deriving DecidableEq

/-- The function `readl_relaxed(RK_CRU_VIRT + offset)`. The registers are volatile: `regs k offset`
is the word the hardware returns to the `k`-th read of the run when it reads `offset`. -/
def readl_relaxed (regs : Nat → Nat → Nat) (m : Mmio) (offset : Nat) : Nat × Mmio :=
  (regs m.reads offset % 2 ^ 32,
   { reads := m.reads + 1, trace := m.trace ++ [IoEvent.readl offset] })

/-- The function `writel_relaxed(value, RK_CRU_VIRT + offset)`. -/
def writel_relaxed (m : Mmio) (value offset : Nat) : Mmio :=
  { m with trace := m.trace ++ [IoEvent.writel value offset] }

/-- The static snapshot arrays the compiled code touches: `cru_apll_con[3]` and
`cru_clksel_con[35]`, as maps from the array index. -/
structure Snapshot where
  cru_apll_con : Nat → Nat
  cru_clksel_con : Nat → Nat

/-- The snapshot arrays as the C runtime zero-initialises them. -/
def zero_snapshot : Snapshot :=
  { cru_apll_con := fun _ => 0, cru_clksel_con := fun _ => 0 }

/-- Body of the loop `for (i = 0; i < 3; i++)` of `cpufreq_rk_suspend`. -/
def suspend_apll_step (regs : Nat → Nat → Nat) (acc : Snapshot × Mmio) (i : Nat) :
    Snapshot × Mmio :=
  let r := readl_relaxed regs acc.2 (0x0000 + i * 4)
  let word := r.1
  let word := if i ≠ 2 then word ||| 0xffff0000 else word
  ({ acc.1 with cru_apll_con := Function.update acc.1.cru_apll_con i word }, r.2)

/-- The function `cpufreq_rk_suspend(policy)`: return code, snapshot and events afterwards.
`pm_device_down` is the power-domain-collapse condition and `clk_cpu_dvfs_node` tells
whether the node pointer is non-NULL. Only the code outside `#if 0` is embedded. -/
def cpufreq_rk_suspend (regs : Nat → Nat → Nat) (pm_device_down clk_cpu_dvfs_node : Bool)
    (snap : Snapshot) (m : Mmio) : Int × Snapshot × Mmio :=
  if pm_device_down then
    let m := if clk_cpu_dvfs_node then { m with trace := m.trace ++ [IoEvent.clk_disable_dvfs] }
             else m
    let r := (List.range 3).foldl (suspend_apll_step regs) (snap, m)
    (0, r.1, r.2)
  else (0, snap, m)

/-- The expression computing `rate_old` and `rate_new` in `cpufreq_rk_resume`:
`24 / (con1 & 0x3f) * (con0 & 0xfff) / ((con0 >> 12) & 0x7) / ((con1 >> 6) & 0x7)`;
`none` when one of the divisors is zero (undefined in C). -/
def apll_rate (con0 con1 : Nat) : Option Nat :=
  if con1 &&& 0x3f = 0 ∨ (con0 >>> 12) &&& 0x7 = 0 ∨ (con1 >>> 6) &&& 0x7 = 0 then none
  else
    some (24 / (con1 &&& 0x3f) * (con0 &&& 0xfff) / ((con0 >>> 12) &&& 0x7)
      / ((con1 >>> 6) &&& 0x7))

/-- The loop `while (i-- > 0) { if (readl_relaxed(CRU + 0x0004) & (1 << 10)) break; }`,
by recursion on the counter `i`. -/
def pll_lock_poll (regs : Nat → Nat → Nat) : Nat → Mmio → Mmio
  | 0, m => m
  | i + 1, m =>
    let r := readl_relaxed regs m 0x0004
    if r.1 &&& (1 <<< 10) ≠ 0 then r.2 else pll_lock_poll regs i r.2

/-- Number of status reads the lock poll makes when started with counter `i` at read
number `k`. -/
def pll_lock_poll_reads (regs : Nat → Nat → Nat) : Nat → Nat → Nat
  | 0, _ => 0
  | i + 1, k =>
    if (regs k 0x0004 % 2 ^ 32) &&& (1 <<< 10) ≠ 0 then 1
    else 1 + pll_lock_poll_reads regs i (k + 1)

/-- The two writes restoring the clock-select words 0 and 1 from the snapshot. -/
def restore_clksel (snap : Snapshot) (m : Mmio) : Mmio :=
  let m := writel_relaxed m (snap.cru_clksel_con 0) 0x0044
  writel_relaxed m (snap.cru_clksel_con 1) 0x0048

/-- The function `cpufreq_rk_resume(policy)`: return code and events afterwards; `none` when
a rate computation divides by zero. Only the code outside `#if 0` is embedded. -/
def cpufreq_rk_resume (regs : Nat → Nat → Nat) (pm_device_down clk_cpu_dvfs_node : Bool)
    (snap : Snapshot) (m : Mmio) : Option (Int × Mmio) :=
  if pm_device_down then
    let r0 := readl_relaxed regs m 0x0000
    let cru_apll_con0_tmp := r0.1
    let r1 := readl_relaxed regs r0.2 0x0004
    let cru_apll_con1_tmp := r1.1
    let m := r1.2
    match apll_rate cru_apll_con0_tmp cru_apll_con1_tmp,
          apll_rate (snap.cru_apll_con 0) (snap.cru_apll_con 1) with
    | some rate_old, some rate_new =>
      let m := if rate_old ≤ rate_new then restore_clksel snap m else m
      let m := writel_relaxed m 0x00800080 0x0044
      let m := (List.range 3).foldl
        (fun m i => writel_relaxed m (snap.cru_apll_con i) (0x0000 + i * 4)) m
      let m := pll_lock_poll regs 24000000 m
      let m := writel_relaxed m 0x00800000 0x0044
      let m := if rate_old > rate_new then restore_clksel snap m else m
      let m := if clk_cpu_dvfs_node then { m with trace := m.trace ++ [IoEvent.clk_enable_dvfs] }
               else m
      some (0, m)
    | _, _ => none
  else some (0, m)

/-- The events of the clock-select restoration: snapshot words 0 and 1 written to the
offsets 0x44 and 0x48. -/
def clksel_restore_events (snap : Snapshot) : List IoEvent :=
  [IoEvent.writel (snap.cru_clksel_con 0) 0x0044, IoEvent.writel (snap.cru_clksel_con 1) 0x0048]

/-- The events of the three PLL-control-word writes. -/
def apll_write_events (snap : Snapshot) : List IoEvent :=
  [IoEvent.writel (snap.cru_apll_con 0) 0x0000, IoEvent.writel (snap.cru_apll_con 1) 0x0004,
   IoEvent.writel (snap.cru_apll_con 2) 0x0008]

/-- The event is a register write to `offset`. -/
def IoEvent.writes_offset (offset : Nat) : IoEvent → Bool
  | IoEvent.writel _ o => o == offset
  | _ => false

/-- Registers for the examples: the two PLL words read back as `con0` and `con1`, and the
lock bit shows from read number `lock_at` on. -/
def example_regs (con0 con1 lock_at : Nat) (k offset : Nat) : Nat :=
  if k = 0 then con0 else if k = 1 then con1
  else if offset = 0x0004 ∧ lock_at ≤ k then con1 ||| (1 <<< 10) else con1

/-- A snapshot for the examples, with the given PLL words 0 and 1. -/
def example_snapshot (con0 con1 : Nat) : Snapshot :=
  { cru_apll_con := fun i => if i = 0 then con0 else if i = 1 then con1 else 0x3
    cru_clksel_con := fun i => 0xffff0000 + i }

/-! ## Properties of the frequency-table helper -/

theorem get_freq_from_table_loop_ge (table_end max_freq : Nat)
    (tbl : List cpufreq_frequency_table) (t : Nat) :
    t ≤ get_freq_from_table_loop table_end max_freq tbl t := by
  induction tbl generalizing t with
  | nil => simp [get_freq_from_table_loop]
  | cons e rest ih =>
    unfold get_freq_from_table_loop
    split_ifs with h1 h2
    · exact le_rfl
    · exact le_trans (le_of_lt h2.2) (ih _)
    · exact ih _

theorem get_freq_from_table_loop_mem (table_end max_freq : Nat)
    (tbl : List cpufreq_frequency_table) (t : Nat) :
    get_freq_from_table_loop table_end max_freq tbl t = t ∨
      (get_freq_from_table_loop table_end max_freq tbl t ∈ table_freqs table_end tbl ∧
        get_freq_from_table_loop table_end max_freq tbl t ≤ max_freq ∧
        t < get_freq_from_table_loop table_end max_freq tbl t) := by
  induction tbl generalizing t with
  | nil => simp [get_freq_from_table_loop]
  | cons e rest ih =>
    unfold get_freq_from_table_loop table_freqs
    split_ifs with h1 h2
    · exact Or.inl rfl
    · rcases ih e.frequency with h | ⟨hm, hle, hlt⟩
      · right
        rw [h]
        exact ⟨List.mem_cons_self _ _, h2.1, h2.2⟩
      · right
        exact ⟨List.mem_cons_of_mem _ hm, hle, lt_trans h2.2 hlt⟩
    · rcases ih t with h | ⟨hm, hle, hlt⟩
      · exact Or.inl h
      · right
        exact ⟨List.mem_cons_of_mem _ hm, hle, hlt⟩

theorem get_freq_from_table_loop_upper (table_end max_freq : Nat)
    (tbl : List cpufreq_frequency_table) (t : Nat) :
    ∀ f ∈ table_freqs table_end tbl, f ≤ max_freq →
      f ≤ get_freq_from_table_loop table_end max_freq tbl t := by
  induction tbl generalizing t with
  | nil => intro f hf; simp [table_freqs] at hf
  | cons e rest ih =>
    intro f hf hle
    unfold table_freqs at hf
    unfold get_freq_from_table_loop
    split_ifs at hf ⊢ with h1 h2
    · simp at hf
    · rcases List.mem_cons.mp hf with hfe | hf
      · rw [hfe]
        exact get_freq_from_table_loop_ge _ _ _ _
      · exact ih _ f hf hle
    · rcases List.mem_cons.mp hf with hfe | hf
      · have hlt : f ≤ t := by
          by_contra hc
          exact h2 ⟨hfe ▸ hle, hfe ▸ not_le.mp hc⟩
        exact le_trans hlt (get_freq_from_table_loop_ge _ _ _ _)
      · exact ih _ f hf hle

/-- C1 (counterexample): on the ascending table 0, 312, 504 with `max_freq = 100` the
entry 0 is a tabulated frequency not exceeding `max_freq`, yet `get_freq_from_table`
returns `max_freq` (100), which is not the largest tabulated frequency below it. -/
theorem get_freq_from_table_zero_entry :
    (∃ f ∈ table_freqs 0xFFFFFFFE (mk_table 0xFFFFFFFE [0, 312, 504]), f ≤ 100) ∧
    get_freq_from_table 0xFFFFFFFE (mk_table 0xFFFFFFFE [0, 312, 504]) 100 = 100 ∧
    ¬ IsLargestNotExceeding (table_freqs 0xFFFFFFFE (mk_table 0xFFFFFFFE [0, 312, 504])) 100
        (get_freq_from_table 0xFFFFFFFE (mk_table 0xFFFFFFFE [0, 312, 504]) 100) := by
  have hf : table_freqs 0xFFFFFFFE (mk_table 0xFFFFFFFE [0, 312, 504]) = [0, 312, 504] := by
    decide
  have hr : get_freq_from_table 0xFFFFFFFE (mk_table 0xFFFFFFFE [0, 312, 504]) 100 = 100 := by
    decide
  refine ⟨⟨0, ?_, by decide⟩, hr, ?_⟩
  · rw [hf]; decide
  · rw [hf, hr]
    intro h
    have := h.1
    simp at this

/-- C1 (amended): for every table and every `max_freq`, `get_freq_from_table` returns the
largest nonzero tabulated frequency that does not exceed `max_freq`, and `max_freq`
itself when no nonzero entry qualifies; on the table 312, 504, 816 a low-battery
frequency of 600 is clamped to 504. -/
theorem get_freq_from_table_largest_nonzero (table_end : Nat)
    (freq_table : List cpufreq_frequency_table) (max_freq : Nat) :
    ((∃ f ∈ (table_freqs table_end freq_table).filter (fun f => f ≠ 0), f ≤ max_freq) →
      IsLargestNotExceeding ((table_freqs table_end freq_table).filter (fun f => f ≠ 0))
        max_freq (get_freq_from_table table_end freq_table max_freq)) ∧
    ((∀ f ∈ (table_freqs table_end freq_table).filter (fun f => f ≠ 0), max_freq < f) →
      get_freq_from_table table_end freq_table max_freq = max_freq) ∧
    get_freq_from_table 0xFFFFFFFE (mk_table 0xFFFFFFFE [312, 504, 816]) 600 = 504 := by
  have hmem := get_freq_from_table_loop_mem table_end max_freq freq_table 0
  have hup := get_freq_from_table_loop_upper table_end max_freq freq_table 0
  refine ⟨?_, ?_, by decide⟩
  · rintro ⟨f, hf, hle⟩
    simp only [List.mem_filter, decide_eq_true_eq] at hf
    have hfr := hup f hf.1 hle
    have hne : get_freq_from_table_loop table_end max_freq freq_table 0 ≠ 0 := by
      intro h0
      rw [h0] at hfr
      exact hf.2 (Nat.le_zero.mp hfr)
    have hres : get_freq_from_table table_end freq_table max_freq =
        get_freq_from_table_loop table_end max_freq freq_table 0 := by
      simp [get_freq_from_table, hne]
    rw [hres]
    rcases hmem with h | ⟨hm, hle2, _⟩
    · exact absurd h hne
    · refine ⟨?_, hle2, ?_⟩
      · simp only [List.mem_filter, decide_eq_true_eq]
        exact ⟨hm, hne⟩
      · intro g hg hgle
        simp only [List.mem_filter, decide_eq_true_eq] at hg
        exact hup g hg.1 hgle
  · intro hall
    have h0 : get_freq_from_table_loop table_end max_freq freq_table 0 = 0 := by
      rcases hmem with h | ⟨hm, hle2, hlt⟩
      · exact h
      · exfalso
        have hin : get_freq_from_table_loop table_end max_freq freq_table 0 ∈
            (table_freqs table_end freq_table).filter (fun f => f ≠ 0) := by
          simp only [List.mem_filter, decide_eq_true_eq]
          exact ⟨hm, Nat.pos_iff_ne_zero.mp hlt⟩
        exact absurd hle2 (not_le.mpr (hall _ hin))
    simp [get_freq_from_table, h0]

/-- C1 (witness): the amended statement at the default table and the initial
low-battery frequency of 600 MHz, which `cpufreq_init_cpu0` clamps to 504 MHz. -/
theorem get_freq_from_table_largest_nonzero_witness :
    (∃ f ∈ (table_freqs 0xFFFFFFFE (default_freq_table 0xFFFFFFFE)).filter (fun f => f ≠ 0),
        f ≤ 600000) ∧
    IsLargestNotExceeding
      ((table_freqs 0xFFFFFFFE (default_freq_table 0xFFFFFFFE)).filter (fun f => f ≠ 0))
      600000 (get_freq_from_table 0xFFFFFFFE (default_freq_table 0xFFFFFFFE) 600000) ∧
    (init_low_battery_freq 0xFFFFFFFE
      (initial_state 0xFFFFFFFE ⟨1608000000, []⟩)).low_battery_freq = 504000 :=
  have hex : ∃ f ∈ (table_freqs 0xFFFFFFFE (default_freq_table 0xFFFFFFFE)).filter
      (fun f => f ≠ 0), f ≤ 600000 := ⟨312000, by decide, by decide⟩
  ⟨hex,
   (get_freq_from_table_largest_nonzero 0xFFFFFFFE (default_freq_table 0xFFFFFFFE) 600000).1 hex,
   by decide⟩

/-! ## The access gate of `cpufreq_target` -/

theorem clear_private_keeps_enable (r : Nat) :
    (r &&& not_u32 CPUFREQ_PRIVATE) &&& ENABLE_FURTHER_CPUFREQ = r &&& ENABLE_FURTHER_CPUFREQ := by
  rw [Nat.land_assoc]
  have h : not_u32 CPUFREQ_PRIVATE &&& ENABLE_FURTHER_CPUFREQ = ENABLE_FURTHER_CPUFREQ := by
    decide
  rw [h]

theorem clear_private_keeps_disable (r : Nat) :
    (r &&& not_u32 CPUFREQ_PRIVATE) &&& DISABLE_FURTHER_CPUFREQ =
      r &&& DISABLE_FURTHER_CPUFREQ := by
  rw [Nat.land_assoc]
  have h : not_u32 CPUFREQ_PRIVATE &&& DISABLE_FURTHER_CPUFREQ = DISABLE_FURTHER_CPUFREQ := by
    decide
  rw [h]

/-- The counter after the enable step of a call. -/
theorem cpufreq_target_denied (env : Collaborators) (s : DriverState)
    (policy : Option cpufreq_policy) (target_freq relation : Nat)
    (table : List cpufreq_frequency_table) (htab : s.freq_table = some table)
    (hclosed : (if carries_enable relation ∧ s.no_cpufreq_access ≠ 0
      then s.no_cpufreq_access - 1 else s.no_cpufreq_access) ≠ 0) :
    cpufreq_target env s policy target_freq relation =
      { ret := -EINVAL, exit := Exit.denied, new_freq := target_freq,
        state := { s with no_cpufreq_access :=
          if carries_enable relation ∧ s.no_cpufreq_access ≠ 0
          then s.no_cpufreq_access - 1 else s.no_cpufreq_access } } := by
  unfold carries_enable at hclosed ⊢
  unfold cpufreq_target
  simp only [htab, clear_private_keeps_enable]
  rw [if_pos hclosed]

theorem cpufreq_target_passed (env : Collaborators) (s : DriverState)
    (policy : Option cpufreq_policy) (target_freq relation : Nat)
    (table : List cpufreq_frequency_table) (htab : s.freq_table = some table)
    (hopen : (if carries_enable relation ∧ s.no_cpufreq_access ≠ 0
      then s.no_cpufreq_access - 1 else s.no_cpufreq_access) = 0) :
    (cpufreq_target env s policy target_freq relation).exit ≠ Exit.denied ∧
    (cpufreq_target env s policy target_freq relation).state.no_cpufreq_access =
      (if carries_disable relation then 1 else 0) := by
  unfold carries_enable at hopen
  unfold carries_disable
  unfold cpufreq_target
  simp only [htab, clear_private_keeps_enable, clear_private_keeps_disable]
  rw [if_neg (not_not.mpr hopen), hopen]
  constructor
  · split_ifs <;> simp
  · split_ifs <;> simp
theorem cpufreq_target_ret_ok (env : Collaborators) (s : DriverState)
    (policy : Option cpufreq_policy) (target_freq relation : Nat)
    (table : List cpufreq_frequency_table) (htab : s.freq_table = some table)
    (hopen : (if carries_enable relation ∧ s.no_cpufreq_access ≠ 0
      then s.no_cpufreq_access - 1 else s.no_cpufreq_access) = 0)
    (hfound : ∀ t r, (env.table_target t r).1 = 0)
    (hset : ∀ c r, (env.dvfs_clk_set_rate c r).2 = 0) :
    (cpufreq_target env s policy target_freq relation).ret = 0 := by
  unfold carries_enable at hopen
  unfold cpufreq_target
  simp only [htab, clear_private_keeps_enable]
  rw [if_neg (not_not.mpr hopen)]
  simp only [hfound, hset]
  split_ifs <;> simp

theorem cpufreq_target_freq_table (env : Collaborators) (s : DriverState)
    (policy : Option cpufreq_policy) (target_freq relation : Nat) :
    (cpufreq_target env s policy target_freq relation).state.freq_table = s.freq_table := by
  unfold cpufreq_target
  cases h : s.freq_table with
  | none => simp [h]
  | some table =>
    simp only
    split_ifs <;> simp [h]

/-- C2: from an open gate, with the table search and the rate setter succeeding, a
request carrying Disable returns 0 and closes the gate; a following request with no
gate action is denied with `-EINVAL`, changes neither the clock nor the counter; a
subsequent request carrying Enable (and not Disable) returns 0 and leaves the gate
open. -/
theorem gate_disable_deny_enable (s : DriverState) (table : List cpufreq_frequency_table)
    (c1 c2 c3 : Call)
    (htab : s.freq_table = some table) (hopen : s.no_cpufreq_access = 0)
    (hc1 : carries_disable c1.relation)
    (hc2 : ¬ carries_enable c2.relation ∧ ¬ carries_disable c2.relation)
    (hc3 : carries_enable c3.relation ∧ ¬ carries_disable c3.relation)
    (hfound1 : ∀ t r, (c1.env.table_target t r).1 = 0)
    (hset1 : ∀ c r, (c1.env.dvfs_clk_set_rate c r).2 = 0)
    (hfound3 : ∀ t r, (c3.env.table_target t r).1 = 0)
    (hset3 : ∀ c r, (c3.env.dvfs_clk_set_rate c r).2 = 0) :
    ((c1.run s).ret = 0 ∧ (c1.run s).state.no_cpufreq_access = 1) ∧
    ((c2.run (run_calls s [c1])).ret = -EINVAL ∧
      (c2.run (run_calls s [c1])).exit = Exit.denied ∧
      (c2.run (run_calls s [c1])).state.clk = (run_calls s [c1]).clk ∧
      (c2.run (run_calls s [c1])).state.no_cpufreq_access =
        (run_calls s [c1]).no_cpufreq_access) ∧
    ((c3.run (run_calls s [c1, c2])).ret = 0 ∧
      (c3.run (run_calls s [c1, c2])).exit ≠ Exit.denied ∧
      (c3.run (run_calls s [c1, c2])).state.no_cpufreq_access = 0) := by
  simp only [run_calls, Call.run]
  have hopen1 : (if carries_enable c1.relation ∧ s.no_cpufreq_access ≠ 0
      then s.no_cpufreq_access - 1 else s.no_cpufreq_access) = 0 := by
    simp [hopen]
  have h1 := cpufreq_target_passed c1.env s c1.policy c1.target_freq c1.relation table htab hopen1
  have h1r := cpufreq_target_ret_ok c1.env s c1.policy c1.target_freq c1.relation table htab
    hopen1 hfound1 hset1
  have h1t := cpufreq_target_freq_table c1.env s c1.policy c1.target_freq c1.relation
  rw [if_pos hc1] at h1
  rw [htab] at h1t
  generalize (cpufreq_target c1.env s c1.policy c1.target_freq c1.relation) = a at h1 h1r h1t ⊢
  have hclosed2 : (if carries_enable c2.relation ∧ a.state.no_cpufreq_access ≠ 0
      then a.state.no_cpufreq_access - 1 else a.state.no_cpufreq_access) ≠ 0 := by
    simp [h1.2, hc2.1]
  have h2 := cpufreq_target_denied c2.env a.state c2.policy c2.target_freq
    c2.relation table h1t hclosed2
  have h2n : (if carries_enable c2.relation ∧ a.state.no_cpufreq_access ≠ 0
      then a.state.no_cpufreq_access - 1 else a.state.no_cpufreq_access) = 1 := by
    simp [h1.2, hc2.1]
  rw [h2n] at h2
  have h2t := cpufreq_target_freq_table c2.env a.state c2.policy c2.target_freq c2.relation
  rw [h1t] at h2t
  have hb : (cpufreq_target c2.env a.state c2.policy c2.target_freq
      c2.relation).state.no_cpufreq_access = 1 := by
    rw [h2]
  have hopen3 : (if carries_enable c3.relation ∧
        (cpufreq_target c2.env a.state c2.policy c2.target_freq
          c2.relation).state.no_cpufreq_access ≠ 0
      then (cpufreq_target c2.env a.state c2.policy c2.target_freq
          c2.relation).state.no_cpufreq_access - 1
      else (cpufreq_target c2.env a.state c2.policy c2.target_freq
          c2.relation).state.no_cpufreq_access) = 0 := by
    simp [hb, hc3.1]
  have h3 := cpufreq_target_passed c3.env _ c3.policy c3.target_freq c3.relation table h2t hopen3
  have h3r := cpufreq_target_ret_ok c3.env _ c3.policy c3.target_freq c3.relation table h2t
    hopen3 hfound3 hset3
  rw [if_neg hc3.2] at h3
  refine ⟨⟨h1r, h1.2⟩, ⟨?_, ?_, ?_, ?_⟩, ⟨h3r, h3.1, h3.2⟩⟩
  · rw [h2]
  · rw [h2]
  · rw [h2]
  · rw [hb, h1.2]

/-- C2 (witness): the scenario on the default table, with `DISABLE_FURTHER_CPUFREQ |
CPUFREQ_RELATION_H`, then `CPUFREQ_RELATION_H`, then `ENABLE_FURTHER_CPUFREQ |
CPUFREQ_RELATION_H`. -/
theorem gate_disable_deny_enable_witness :
    ((example_call 2 0x11).run (initial_state 0xFFFFFFFE ⟨1608000000, []⟩)).ret = 0 ∧
    ((example_call 3 0x01).run (run_calls (initial_state 0xFFFFFFFE ⟨1608000000, []⟩)
      [example_call 2 0x11])).ret = -EINVAL ∧
    ((example_call 3 0x21).run (run_calls (initial_state 0xFFFFFFFE ⟨1608000000, []⟩)
      [example_call 2 0x11, example_call 3 0x01])).state.no_cpufreq_access = 0 :=
  have h := gate_disable_deny_enable (initial_state 0xFFFFFFFE ⟨1608000000, []⟩)
    (default_freq_table 0xFFFFFFFE) (example_call 2 0x11) (example_call 3 0x01)
    (example_call 3 0x21) rfl rfl (by decide) (by decide) (by decide)
    (fun _ _ => rfl) (fun _ _ => rfl) (fun _ _ => rfl) (fun _ _ => rfl)
  ⟨h.1.1, h.2.1.1, h.2.2.2.2⟩

theorem run_calls_append (s : DriverState) (xs ys : List Call) :
    run_calls s (xs ++ ys) = run_calls (run_calls s xs) ys := by
  induction xs generalizing s with
  | nil => rfl
  | cons c cs ih =>
    show run_calls (c.run s).state (cs ++ ys) = run_calls (run_calls (c.run s).state cs) ys
    exact ih _

theorem run_calls_freq_table (s : DriverState) (cs : List Call) :
    (run_calls s cs).freq_table = s.freq_table := by
  induction cs generalizing s with
  | nil => rfl
  | cons c cs ih =>
    simp only [run_calls, ih, Call.run, cpufreq_target_freq_table]

/-- A call on a state without table changes nothing. -/
theorem cpufreq_target_no_table (env : Collaborators) (s : DriverState)
    (policy : Option cpufreq_policy) (target_freq relation : Nat)
    (htab : s.freq_table = none) :
    cpufreq_target env s policy target_freq relation =
      { ret := -EINVAL, exit := Exit.no_table, new_freq := target_freq, state := s } := by
  unfold cpufreq_target
  simp only [htab]

/-- One call keeps the counter within 0 and 1. -/
theorem cpufreq_target_counter_le_one (env : Collaborators) (s : DriverState)
    (policy : Option cpufreq_policy) (target_freq relation : Nat)
    (h : s.no_cpufreq_access ≤ 1) :
    (cpufreq_target env s policy target_freq relation).state.no_cpufreq_access ≤ 1 := by
  cases htab : s.freq_table with
  | none => rw [cpufreq_target_no_table env s policy target_freq relation htab]; exact h
  | some table =>
    by_cases hn : (if carries_enable relation ∧ s.no_cpufreq_access ≠ 0
        then s.no_cpufreq_access - 1 else s.no_cpufreq_access) = 0
    · rw [(cpufreq_target_passed env s policy target_freq relation table htab hn).2]
      split_ifs <;> simp
    · rw [cpufreq_target_denied env s policy target_freq relation table htab hn]
      show (if carries_enable relation ∧ s.no_cpufreq_access ≠ 0
        then s.no_cpufreq_access - 1 else s.no_cpufreq_access) ≤ 1
      split_ifs <;> omega

theorem run_calls_counter_le_one (s : DriverState) (cs : List Call)
    (h : s.no_cpufreq_access ≤ 1) : (run_calls s cs).no_cpufreq_access ≤ 1 := by
  induction cs generalizing s with
  | nil => exact h
  | cons c cs ih =>
    simp only [run_calls]
    exact ih _ (cpufreq_target_counter_le_one c.env s c.policy c.target_freq c.relation h)

/-- A counter that is not zero was raised by a call that saw a table. -/
theorem run_calls_table_of_closed (s : DriverState) (cs : List Call)
    (h0 : s.no_cpufreq_access = 0) (hc : (run_calls s cs).no_cpufreq_access ≠ 0) :
    ∃ table, (run_calls s cs).freq_table = some table := by
  rw [run_calls_freq_table]
  cases htab : s.freq_table with
  | some table => exact ⟨table, rfl⟩
  | none =>
    exfalso
    apply hc
    clear hc
    induction cs generalizing s with
    | nil => exact h0
    | cons c cs ih =>
      simp only [run_calls, Call.run]
      rw [cpufreq_target_no_table c.env s c.policy c.target_freq c.relation htab]
      exact ih s h0 htab

/-- A request carrying Disable but not Enable leaves a closed gate closed at 1. -/
theorem disable_only_on_closed (c : Call) (s : DriverState)
    (table : List cpufreq_frequency_table) (htab : s.freq_table = some table)
    (hn : s.no_cpufreq_access = 1) (hc : ¬ carries_enable c.relation) :
    (c.run s).exit = Exit.denied ∧ (c.run s).state.no_cpufreq_access = 1 := by
  have hclosed : (if carries_enable c.relation ∧ s.no_cpufreq_access ≠ 0
      then s.no_cpufreq_access - 1 else s.no_cpufreq_access) ≠ 0 := by
    simp [hn, hc]
  unfold Call.run
  rw [cpufreq_target_denied c.env s c.policy c.target_freq c.relation table htab hclosed]
  simp [hn, hc]

/-- A request carrying Disable leaves a closed gate closed at 1, whether it is denied
(no Enable) or passes (Enable lowers the counter, Disable raises it again). -/
theorem disable_on_closed (c : Call) (s : DriverState)
    (table : List cpufreq_frequency_table) (htab : s.freq_table = some table)
    (hn : s.no_cpufreq_access = 1) (hd : carries_disable c.relation) :
    (c.run s).state.no_cpufreq_access = 1 := by
  by_cases he : carries_enable c.relation
  · have hopen : (if carries_enable c.relation ∧ s.no_cpufreq_access ≠ 0
        then s.no_cpufreq_access - 1 else s.no_cpufreq_access) = 0 := by
      simp [hn, he]
    have h := cpufreq_target_passed c.env s c.policy c.target_freq c.relation table htab hopen
    rw [if_pos hd] at h
    exact h.2
  · exact (disable_only_on_closed c s table htab hn he).2

theorem disable_calls_keep_closed (s : DriverState) (ds : List Call)
    (table : List cpufreq_frequency_table) (htab : s.freq_table = some table)
    (hn : s.no_cpufreq_access = 1)
    (hds : ∀ c ∈ ds, carries_disable c.relation) :
    (run_calls s ds).no_cpufreq_access = 1 := by
  induction ds generalizing s with
  | nil => exact hn
  | cons c cs ih =>
    simp only [run_calls]
    have hc := hds c (List.mem_cons_self _ _)
    apply ih
    · unfold Call.run
      rw [cpufreq_target_freq_table, htab]
    · exact disable_on_closed c s table htab hn hc
    · intro c' hc'
      exact hds c' (List.mem_cons_of_mem _ hc')

/-- C3 (counterexample): after two requests carrying Disable the counter is 1, not 2,
and a single request carrying Enable already reopens the gate. -/
theorem two_disables_one_enable_reopens :
    (run_calls (initial_state 0xFFFFFFFE ⟨1608000000, []⟩)
      [example_call 2 0x11, example_call 2 0x11]).no_cpufreq_access = 1 ∧
    (run_calls (initial_state 0xFFFFFFFE ⟨1608000000, []⟩)
      [example_call 2 0x11, example_call 2 0x11, example_call 2 0x21]).no_cpufreq_access = 0 := by
  constructor <;> rfl

/-- C3 (amended): the gate is a counter that starts open. A request carrying Disable
closes an open gate; on a closed gate a request carrying Disable never raises the
counter above 1 (without Enable it is denied before the increment), so after any N ≥ 1
requests carrying Disable the counter is 1 and a single request carrying Enable without
Disable passes and reopens the gate; Enable lowers the counter only when it is
positive, an open gate stays at 0. -/
theorem gate_closures_do_not_nest (s : DriverState) (table : List cpufreq_frequency_table)
    (ds : List Call) (e : Call)
    (htab : s.freq_table = some table) (hopen : s.no_cpufreq_access = 0)
    (hN : ds ≠ [])
    (hds : ∀ c ∈ ds, carries_disable c.relation)
    (he : carries_enable e.relation ∧ ¬ carries_disable e.relation) :
    (run_calls s ds).no_cpufreq_access = 1 ∧
    (e.run (run_calls s ds)).exit ≠ Exit.denied ∧
    (run_calls s (ds ++ [e])).no_cpufreq_access = 0 ∧
    (e.run s).state.no_cpufreq_access = 0 := by
  have hclosed : (run_calls s ds).no_cpufreq_access = 1 := by
    cases ds with
    | nil => exact absurd rfl hN
    | cons d ds =>
      simp only [run_calls]
      have hd := hds d (List.mem_cons_self _ _)
      have hopen1 : (if carries_enable d.relation ∧ s.no_cpufreq_access ≠ 0
          then s.no_cpufreq_access - 1 else s.no_cpufreq_access) = 0 := by
        simp [hopen]
      have h1 := cpufreq_target_passed d.env s d.policy d.target_freq d.relation table htab
        hopen1
      rw [if_pos hd] at h1
      apply disable_calls_keep_closed _ ds table
      · unfold Call.run
        rw [cpufreq_target_freq_table, htab]
      · exact h1.2
      · intro c hc
        exact hds c (List.mem_cons_of_mem _ hc)
  have htab2 : (run_calls s ds).freq_table = some table := by
    rw [run_calls_freq_table, htab]
  have hopen2 : (if carries_enable e.relation ∧ (run_calls s ds).no_cpufreq_access ≠ 0
      then (run_calls s ds).no_cpufreq_access - 1 else (run_calls s ds).no_cpufreq_access)
      = 0 := by
    simp [hclosed, he.1]
  have h2 := cpufreq_target_passed e.env (run_calls s ds) e.policy e.target_freq e.relation
    table htab2 hopen2
  rw [if_neg he.2] at h2
  have hopen3 : (if carries_enable e.relation ∧ s.no_cpufreq_access ≠ 0
      then s.no_cpufreq_access - 1 else s.no_cpufreq_access) = 0 := by
    simp [hopen]
  have h3 := cpufreq_target_passed e.env s e.policy e.target_freq e.relation table htab hopen3
  rw [if_neg he.2] at h3
  refine ⟨hclosed, h2.1, ?_, h3.2⟩
  rw [run_calls_append]
  simp only [run_calls]
  exact h2.2

/-- C3 (witness): three requests carrying Disable, then one carrying Enable, on the
default table. -/
theorem gate_closures_do_not_nest_witness :
    (run_calls (initial_state 0xFFFFFFFE ⟨1608000000, []⟩)
      [example_call 2 0x11, example_call 3 0x10, example_call 2 0x11]).no_cpufreq_access = 1 ∧
    (run_calls (initial_state 0xFFFFFFFE ⟨1608000000, []⟩)
      ([example_call 2 0x11, example_call 3 0x10, example_call 2 0x11] ++
        [example_call 2 0x21])).no_cpufreq_access = 0 :=
  have h := gate_closures_do_not_nest (initial_state 0xFFFFFFFE ⟨1608000000, []⟩)
    (default_freq_table 0xFFFFFFFE)
    [example_call 2 0x11, example_call 3 0x10, example_call 2 0x11] (example_call 2 0x21)
    rfl rfl (by simp) (by decide) (by decide)
  ⟨h.1, h.2.2.1⟩

/-- C10: in every state reached from a state with counter 0 by any sequence of
`cpufreq_target` calls, the counter is 0 or 1; there a request carrying Disable without
Enable that meets a closed gate is denied and leaves the counter as it is, and a request
carrying Enable is never denied. -/
theorem gate_counter_zero_or_one (s0 : DriverState) (calls : List Call)
    (h0 : s0.no_cpufreq_access = 0) :
    ((run_calls s0 calls).no_cpufreq_access = 0 ∨ (run_calls s0 calls).no_cpufreq_access = 1) ∧
    (∀ c : Call, carries_disable c.relation → ¬ carries_enable c.relation →
      (run_calls s0 calls).no_cpufreq_access ≠ 0 →
      (c.run (run_calls s0 calls)).exit = Exit.denied ∧
      (c.run (run_calls s0 calls)).state.no_cpufreq_access =
        (run_calls s0 calls).no_cpufreq_access) ∧
    (∀ c : Call, carries_enable c.relation →
      (c.run (run_calls s0 calls)).exit ≠ Exit.denied) := by
  have hle : (run_calls s0 calls).no_cpufreq_access ≤ 1 :=
    run_calls_counter_le_one s0 calls (by omega)
  refine ⟨by omega, ?_, ?_⟩
  · intro c _ he hne
    obtain ⟨table, htab⟩ := run_calls_table_of_closed s0 calls h0 hne
    have hn : (run_calls s0 calls).no_cpufreq_access = 1 := by omega
    rw [hn]
    exact disable_only_on_closed c _ table htab hn he
  · intro c he
    cases htab : (run_calls s0 calls).freq_table with
    | none =>
      unfold Call.run
      rw [cpufreq_target_no_table c.env _ c.policy c.target_freq c.relation htab]
      simp
    | some table =>
      have hopen : (if carries_enable c.relation ∧ (run_calls s0 calls).no_cpufreq_access ≠ 0
          then (run_calls s0 calls).no_cpufreq_access - 1
          else (run_calls s0 calls).no_cpufreq_access) = 0 := by
        split_ifs with h
        · omega
        · have : (run_calls s0 calls).no_cpufreq_access = 0 := by
            by_contra hc
            exact h ⟨he, hc⟩
          exact this
      exact (cpufreq_target_passed c.env _ c.policy c.target_freq c.relation table htab
        hopen).1

/-- C10 (witness): after Disable, a denied plain request, Disable again and a request
carrying both flags, the counter on the default table is 1 and a request carrying
Enable is not denied. -/
theorem gate_counter_zero_or_one_witness :
    (run_calls (initial_state 0xFFFFFFFE ⟨1608000000, []⟩)
      [example_call 2 0x11, example_call 3 0x01, example_call 2 0x10,
        example_call 4 0x131]).no_cpufreq_access = 1 ∧
    ((example_call 2 0x21).run (run_calls (initial_state 0xFFFFFFFE ⟨1608000000, []⟩)
      [example_call 2 0x11, example_call 3 0x01, example_call 2 0x10,
        example_call 4 0x131])).exit ≠ Exit.denied :=
  have h := gate_counter_zero_or_one (initial_state 0xFFFFFFFE ⟨1608000000, []⟩)
    [example_call 2 0x11, example_call 3 0x01, example_call 2 0x10, example_call 4 0x131] rfl
  ⟨by rfl, h.2.2 (example_call 2 0x21) (by decide)⟩

/-! ## The steps of `cpufreq_target` after the gate -/

/-- The function `cpufreq_target` on a state with a table, step by step. -/
theorem cpufreq_target_steps (env : Collaborators) (s : DriverState)
    (policy : Option cpufreq_policy) (target_freq relation : Nat)
    (table : List cpufreq_frequency_table) (htab : s.freq_table = some table) :
    cpufreq_target env s policy target_freq relation =
      if gate_after_enable relation s.no_cpufreq_access ≠ 0 then
        { ret := -EINVAL, exit := Exit.denied, new_freq := target_freq,
          state := { s with no_cpufreq_access := gate_after_enable relation s.no_cpufreq_access } }
      else if (env.table_target target_freq (search_relation relation)).1 ≠ 0 then
        { ret := (env.table_target target_freq (search_relation relation)).1,
          exit := Exit.no_match, new_freq := target_freq,
          state := { s with no_cpufreq_access :=
            gate_after_disable relation (gate_after_enable relation s.no_cpufreq_access) } }
      else if gate_after_disable relation (gate_after_enable relation s.no_cpufreq_access) = 0 then
        if ((cpufreq_scale_limit s.is_booting s.low_battery_freq env.boottime_ms
              env.battery_capacity (found_frequency env table target_freq relation) policy
              (decide (carries_private relation))).1 * 1000) % 2 ^ 32 = s.clk.rate % 2 ^ 32 then
          { ret := (env.table_target target_freq (search_relation relation)).1,
            exit := Exit.unchanged,
            new_freq := (cpufreq_scale_limit s.is_booting s.low_battery_freq env.boottime_ms
              env.battery_capacity (found_frequency env table target_freq relation) policy
              (decide (carries_private relation))).1,
            state := { s with
              no_cpufreq_access :=
                gate_after_disable relation (gate_after_enable relation s.no_cpufreq_access),
              is_booting := (cpufreq_scale_limit s.is_booting s.low_battery_freq env.boottime_ms
                env.battery_capacity (found_frequency env table target_freq relation) policy
                (decide (carries_private relation))).2 } }
        else
          { ret := (env.dvfs_clk_set_rate s.clk
              (((cpufreq_scale_limit s.is_booting s.low_battery_freq env.boottime_ms
                env.battery_capacity (found_frequency env table target_freq relation) policy
                (decide (carries_private relation))).1 * 1000) % 2 ^ 32)).2,
            exit := Exit.rate_set,
            new_freq := (cpufreq_scale_limit s.is_booting s.low_battery_freq env.boottime_ms
              env.battery_capacity (found_frequency env table target_freq relation) policy
              (decide (carries_private relation))).1,
            state := { s with
              no_cpufreq_access :=
                gate_after_disable relation (gate_after_enable relation s.no_cpufreq_access),
              is_booting := (cpufreq_scale_limit s.is_booting s.low_battery_freq env.boottime_ms
                env.battery_capacity (found_frequency env table target_freq relation) policy
                (decide (carries_private relation))).2,
              clk := (env.dvfs_clk_set_rate s.clk
                (((cpufreq_scale_limit s.is_booting s.low_battery_freq env.boottime_ms
                  env.battery_capacity (found_frequency env table target_freq relation) policy
                  (decide (carries_private relation))).1 * 1000) % 2 ^ 32)).1 } }
      else
        if (found_frequency env table target_freq relation * 1000) % 2 ^ 32
            = s.clk.rate % 2 ^ 32 then
          { ret := (env.table_target target_freq (search_relation relation)).1,
            exit := Exit.unchanged,
            new_freq := found_frequency env table target_freq relation,
            state := { s with
              no_cpufreq_access :=
                gate_after_disable relation (gate_after_enable relation s.no_cpufreq_access),
              is_booting := s.is_booting } }
        else
          { ret := (env.dvfs_clk_set_rate s.clk
              ((found_frequency env table target_freq relation * 1000) % 2 ^ 32)).2,
            exit := Exit.rate_set,
            new_freq := found_frequency env table target_freq relation,
            state := { s with
              no_cpufreq_access :=
                gate_after_disable relation (gate_after_enable relation s.no_cpufreq_access),
              is_booting := s.is_booting,
              clk := (env.dvfs_clk_set_rate s.clk
                ((found_frequency env table target_freq relation * 1000) % 2 ^ 32)).1 } } := by
  unfold cpufreq_target gate_after_enable gate_after_disable found_frequency search_relation
    carries_enable carries_disable carries_private
  simp only [htab, clear_private_keeps_enable, clear_private_keeps_disable]
  by_cases h1 : (if r_en : relation &&& ENABLE_FURTHER_CPUFREQ ≠ 0 ∧ s.no_cpufreq_access ≠ 0
      then s.no_cpufreq_access - 1 else s.no_cpufreq_access) ≠ 0
  · simp only [dite_eq_ite] at h1
    rw [if_pos h1, if_pos h1]
  · simp only [dite_eq_ite] at h1
    rw [if_neg h1, if_neg h1]
    by_cases h2 : (env.table_target target_freq
        ((relation &&& not_u32 CPUFREQ_PRIVATE) &&& not_u32 MASK_FURTHER_CPUFREQ)).1 ≠ 0
    · rw [if_pos h2, if_pos h2]
    · rw [if_neg h2, if_neg h2]
      split_ifs <;> rfl

/-! ## The no-op path of `cpufreq_target` -/

/-- C4 (counterexample): the clock runs at 816000500 Hz, so `cpufreq_get_rate` reports
816000 kHz; a request that passes the gate and resolves to 816000 kHz is nevertheless
handed to the rate setter, and a pre/post notification pair is issued per cpu. -/
theorem khz_equal_request_still_sets_rate :
    ((example_call 2 0x00).run (initial_state 0xFFFFFFFE ⟨816000500, []⟩)).new_freq =
      cpufreq_get_rate (some ⟨816000500, []⟩) ∧
    ((example_call 2 0x00).run (initial_state 0xFFFFFFFE ⟨816000500, []⟩)).exit =
      Exit.rate_set ∧
    ((example_call 2 0x00).run (initial_state 0xFFFFFFFE ⟨816000500, []⟩)).state.clk.log =
      [Event.prechange 0 816000 816000, Event.prechange 1 816000 816000,
       Event.clk_set_rate 816000000,
       Event.postchange 0 816000 816000, Event.postchange 1 816000 816000] := by
  refine ⟨?_, ?_, ?_⟩ <;> decide

/-- C4 (amended): for every request that passes the gate and whose table search
succeeds, if the resolved frequency times 1000 (as a 32-bit value, in Hz) equals the
current clock rate in Hz, `cpufreq_target` returns 0 by the no-op exit and leaves the
clock and its event log untouched: the rate setter is not called, so there is no
hardware write and no notification. -/
theorem equal_rate_is_noop (c : Call) (s : DriverState)
    (hgate : (c.run s).exit ≠ Exit.no_table ∧ (c.run s).exit ≠ Exit.denied)
    (hfound : (c.run s).exit ≠ Exit.no_match)
    (hrate : ((c.run s).new_freq * 1000) % 2 ^ 32 = s.clk.rate % 2 ^ 32) :
    (c.run s).ret = 0 ∧ (c.run s).exit = Exit.unchanged ∧ (c.run s).state.clk = s.clk := by
  unfold Call.run at *
  cases htab : s.freq_table with
  | none =>
    rw [cpufreq_target_no_table c.env s c.policy c.target_freq c.relation htab] at hgate
    exact absurd rfl hgate.1
  | some table =>
    rw [cpufreq_target_steps c.env s c.policy c.target_freq c.relation table htab]
      at hgate hfound hrate ⊢
    split_ifs at hgate hfound hrate ⊢ with h1 h2 h3 h4 h5
    · exact absurd rfl hgate.2
    · exact absurd rfl hfound
    · exact ⟨not_not.mp h2, rfl, rfl⟩
    · exact absurd hrate h4
    · exact ⟨not_not.mp h2, rfl, rfl⟩
    · exact absurd hrate h5

/-- C4 (witness): the clock runs at exactly 816000000 Hz and the request resolves to
816000 kHz. -/
theorem equal_rate_is_noop_witness :
    ((example_call 2 0x00).run (initial_state 0xFFFFFFFE ⟨816000000, []⟩)).ret = 0 ∧
    ((example_call 2 0x00).run (initial_state 0xFFFFFFFE ⟨816000000, []⟩)).exit =
      Exit.unchanged ∧
    ((example_call 2 0x00).run (initial_state 0xFFFFFFFE ⟨816000000, []⟩)).state.clk =
      ⟨816000000, []⟩ :=
  equal_rate_is_noop (example_call 2 0x00) (initial_state 0xFFFFFFFE ⟨816000000, []⟩)
    (by decide) (by decide) (by decide)

/-! ## The battery limiter -/

theorem to_u32_of_nonneg (x : Int) (h0 : 0 ≤ x) (h1 : x < 2 ^ 31) :
    (to_u32 x ≤ low_battery_capacity ↔ x ≤ 5) := by
  unfold to_u32 low_battery_capacity
  have hx : x % 2 ^ 32 = x := Int.emod_eq_of_lt h0 (by omega)
  rw [hx]
  omega

/-- C5 (counterexample): at an elapsed boot time of exactly 60 s (60000 ms), with the
latch set, capacity 5, a dynamic governor and a target above the cap, the limiter still
returns the cap. -/
theorem scale_limit_clamps_at_60s :
    (60000 : Int) ≥ 60 * MSEC_PER_SEC ∧
    (cpufreq_scale_limit true 504000 60000 5 816000 (policy_of "interactive") false).1 =
      504000 := by
  constructor <;> decide

/-- C5 (amended): for every target, elapsed boot time (in ms), non-negative battery
capacity, latch state, governor and private flag, the limiter returns the low-battery
cap instead of the target exactly when the latch is set, the elapsed boot time is at most
60 s (60000 ms), the capacity is at most 5, the target exceeds the cap and the governor
is dynamic; otherwise it returns the target unchanged, so at any elapsed time above
60 s it never clamps. -/
theorem scale_limit_clamps_iff (is_booting : Bool) (low_battery_freq : Nat)
    (boottime_ms battery_capacity : Int) (target_freq : Nat)
    (policy : Option cpufreq_policy) (is_private : Bool)
    (h0 : 0 ≤ battery_capacity) (h1 : battery_capacity < 2 ^ 31) :
    (cpufreq_scale_limit is_booting low_battery_freq boottime_ms battery_capacity
        target_freq policy is_private).1 =
      (if is_booting = true ∧ boottime_ms ≤ 60 * MSEC_PER_SEC ∧ battery_capacity ≤ 5 ∧
          target_freq > low_battery_freq ∧ cpufreq_is_ondemand policy = true
        then low_battery_freq else target_freq) ∧
    (boottime_ms > 60 * MSEC_PER_SEC →
      (cpufreq_scale_limit is_booting low_battery_freq boottime_ms battery_capacity
        target_freq policy is_private).1 = target_freq) := by
  have hcap := to_u32_of_nonneg battery_capacity h0 h1
  unfold cpufreq_scale_limit
  constructor
  · by_cases hg : cpufreq_is_ondemand policy = true
    · by_cases hb : is_booting = true
      · by_cases ht : boottime_ms > 60 * MSEC_PER_SEC
        · have ht' : ¬ boottime_ms ≤ 60 * MSEC_PER_SEC := not_le.mpr ht
          simp [hg, hb, ht, ht']
        · have ht' : boottime_ms ≤ 60 * MSEC_PER_SEC := not_lt.mp ht
          by_cases hc : target_freq > low_battery_freq ∧
              to_u32 battery_capacity ≤ low_battery_capacity
          · have hc5 : battery_capacity ≤ 5 := hcap.mp hc.2
            simp only [hg, hb, ht, ht', hc, hc5, hc.1]
            simp
          · have hcond : ¬ (battery_capacity ≤ 5 ∧ target_freq > low_battery_freq) := by
              intro hh
              exact hc ⟨hh.2, hcap.mpr hh.1⟩
            simp only [hg, hb, ht, ht', hc]
            simp only [Bool.not_true, Bool.false_eq_true, if_false, if_true, true_and, and_true]
            rw [if_neg hcond]
      · simp [hg, hb]
    · simp [hg]
  · intro ht
    by_cases hg : cpufreq_is_ondemand policy = true
    · by_cases hb : is_booting = true
      · simp [hg, hb, ht]
      · simp [hg, hb]
    · simp [hg]

/-- C5 (witness): at 60001 ms the limiter leaves 816000 kHz alone, even with the latch
set, capacity 3 and a dynamic governor. -/
theorem scale_limit_clamps_iff_witness :
    (cpufreq_scale_limit true 504000 60001 3 816000 (policy_of "ondemand") false).1 = 816000 :=
  (scale_limit_clamps_iff true 504000 60001 3 816000 (policy_of "ondemand") false
    (by decide) (by decide)).2 (by decide)

/-! ## The private flag -/

theorem lor_private_cleared (r : Nat) :
    (r ||| CPUFREQ_PRIVATE) &&& not_u32 CPUFREQ_PRIVATE = r &&& not_u32 CPUFREQ_PRIVATE := by
  have hPN : CPUFREQ_PRIVATE &&& not_u32 CPUFREQ_PRIVATE = 0 := by decide
  apply Nat.eq_of_testBit_eq
  intro i
  have hbit := congrArg (fun n => Nat.testBit n i) hPN
  simp only [Nat.testBit_and, Nat.zero_testBit] at hbit
  simp only [Nat.testBit_and, Nat.testBit_or, Bool.and_or_distrib_right, hbit, Bool.or_false]

theorem land_private_cleared (r : Nat) :
    (r &&& not_u32 CPUFREQ_PRIVATE) &&& not_u32 CPUFREQ_PRIVATE =
      r &&& not_u32 CPUFREQ_PRIVATE := by
  rw [Nat.land_assoc, Nat.and_self]

/-- The limiter does not read its `is_private` argument. -/
theorem scale_limit_ignores_private (is_booting : Bool) (low_battery_freq : Nat)
    (boottime_ms battery_capacity : Int) (target_freq : Nat)
    (policy : Option cpufreq_policy) (b1 b2 : Bool) :
    cpufreq_scale_limit is_booting low_battery_freq boottime_ms battery_capacity
        target_freq policy b1 =
      cpufreq_scale_limit is_booting low_battery_freq boottime_ms battery_capacity
        target_freq policy b2 := rfl

/-- C6 (counterexample): after init on the default table (cap 504000 kHz), a private
request (`CPUFREQ_PRIVATE | CPUFREQ_RELATION_L`) on an open gate, during the boot window
with 3 % battery and a dynamic governor: the table search finds 816000 kHz, but the
frequency handed to the rate setter is the low-battery cap 504000 kHz. -/
theorem private_request_is_clamped :
    carries_private 0x100 ∧
    found_frequency (example_env 2 1000 3) (default_freq_table 0xFFFFFFFE) 816000 0x100 =
      816000 ∧
    (cpufreq_target (example_env 2 1000 3)
      (init_low_battery_freq 0xFFFFFFFE (initial_state 0xFFFFFFFE ⟨1608000000, []⟩))
      (policy_of "interactive") 816000 0x100).new_freq = 504000 ∧
    (cpufreq_target (example_env 2 1000 3)
      (init_low_battery_freq 0xFFFFFFFE (initial_state 0xFFFFFFFE ⟨1608000000, []⟩))
      (policy_of "interactive") 816000 0x100).state.clk.log =
      [Event.prechange 0 1608000 504000, Event.prechange 1 1608000 504000,
       Event.clk_set_rate 504000000,
       Event.postchange 0 1608000 504000, Event.postchange 1 1608000 504000] := by
  refine ⟨?_, ?_, ?_, ?_⟩ <;> decide

/-- C6 (amended): the private flag is stripped and never consulted: a request with
`CPUFREQ_PRIVATE` set has the same outcome as the same request without it. For
every request, private or not, that reaches the rate step, the frequency handed to it is
the table frequency passed through the battery limiter when the gate is open after the
gate update, and the table frequency itself when the request has just closed the gate. -/
theorem private_flag_is_ignored (env : Collaborators) (s : DriverState)
    (policy : Option cpufreq_policy) (target_freq relation : Nat) :
    cpufreq_target env s policy target_freq (relation ||| CPUFREQ_PRIVATE) =
      cpufreq_target env s policy target_freq (relation &&& not_u32 CPUFREQ_PRIVATE) ∧
    (∀ table, s.freq_table = some table →
      (cpufreq_target env s policy target_freq relation).exit = Exit.unchanged ∨
        (cpufreq_target env s policy target_freq relation).exit = Exit.rate_set →
      (cpufreq_target env s policy target_freq relation).new_freq =
        if (cpufreq_target env s policy target_freq relation).state.no_cpufreq_access = 0 then
          (cpufreq_scale_limit s.is_booting s.low_battery_freq env.boottime_ms
            env.battery_capacity (found_frequency env table target_freq relation) policy
            false).1
        else found_frequency env table target_freq relation) := by
  constructor
  · unfold cpufreq_target
    simp only [lor_private_cleared, land_private_cleared]
    rfl
  · intro table htab hexit
    rw [cpufreq_target_steps env s policy target_freq relation table htab] at hexit ⊢
    by_cases h1 : gate_after_enable relation s.no_cpufreq_access ≠ 0
    · rw [if_pos h1] at hexit
      simp at hexit
    · rw [if_neg h1] at hexit ⊢
      by_cases h2 : (env.table_target target_freq (search_relation relation)).1 ≠ 0
      · rw [if_pos h2] at hexit
        simp at hexit
      · rw [if_neg h2]
        clear hexit
        by_cases h3 : gate_after_disable relation
            (gate_after_enable relation s.no_cpufreq_access) = 0
        · rw [if_pos h3]
          split_ifs <;> rfl
        · rw [if_neg h3]
          split_ifs <;> rfl

/-- C6 (witness): on the default table a request that carries Disable and resolves to
816000 kHz is handed on unclamped although the battery is low, because the gate is closed
after its gate update. -/
theorem private_flag_is_ignored_witness :
    (cpufreq_target (example_env 2 1000 3) (initial_state 0xFFFFFFFE ⟨1608000000, []⟩)
      (policy_of "interactive") 816000 0x110).new_freq = 816000 :=
  ((private_flag_is_ignored (example_env 2 1000 3)
      (initial_state 0xFFFFFFFE ⟨1608000000, []⟩) (policy_of "interactive") 816000 0x110).2
    (default_freq_table 0xFFFFFFFE) rfl (Or.inr (by decide))).trans (by decide)

/-! ## The resume sequence -/

theorem pll_lock_poll_reads_le (regs : Nat → Nat → Nat) (i k : Nat) :
    pll_lock_poll_reads regs i k ≤ i := by
  induction i generalizing k with
  | zero => simp [pll_lock_poll_reads]
  | succ i ih =>
    unfold pll_lock_poll_reads
    split_ifs
    · omega
    · have := ih (k + 1)
      omega

theorem pll_lock_poll_reads_pos (regs : Nat → Nat → Nat) (i k : Nat) (hi : 0 < i) :
    1 ≤ pll_lock_poll_reads regs i k := by
  cases i with
  | zero => omega
  | succ i =>
    unfold pll_lock_poll_reads
    split_ifs <;> omega

theorem pll_lock_poll_reads_never (regs : Nat → Nat → Nat) (i k : Nat)
    (hnever : ∀ j, (regs j 0x0004 % 2 ^ 32) &&& (1 <<< 10) = 0) :
    pll_lock_poll_reads regs i k = i := by
  induction i generalizing k with
  | zero => simp [pll_lock_poll_reads]
  | succ i ih =>
    unfold pll_lock_poll_reads
    rw [if_neg (not_not.mpr (hnever k)), ih (k + 1)]
    omega

/-- The lock poll only appends status reads, as many as `pll_lock_poll_reads` counts. -/
theorem pll_lock_poll_eq (regs : Nat → Nat → Nat) (i : Nat) (m : Mmio) :
    pll_lock_poll regs i m =
      { reads := m.reads + pll_lock_poll_reads regs i m.reads,
        trace := m.trace ++
          List.replicate (pll_lock_poll_reads regs i m.reads) (IoEvent.readl 0x0004) } := by
  induction i generalizing m with
  | zero => simp [pll_lock_poll, pll_lock_poll_reads]
  | succ i ih =>
    unfold pll_lock_poll pll_lock_poll_reads
    simp only [readl_relaxed]
    split_ifs with h
    · simp
    · rw [ih]
      simp only [Mmio.mk.injEq]
      constructor
      · omega
      · rw [Nat.add_comm 1, List.replicate_succ]
        simp

/-- The whole event sequence of `cpufreq_rk_resume` under the collapse condition. -/
theorem cpufreq_rk_resume_trace (regs : Nat → Nat → Nat) (node : Bool) (snap : Snapshot)
    (rate_old rate_new : Nat)
    (hold : apll_rate (regs 0 0x0000 % 2 ^ 32) (regs 1 0x0004 % 2 ^ 32) = some rate_old)
    (hnew : apll_rate (snap.cru_apll_con 0) (snap.cru_apll_con 1) = some rate_new) :
    cpufreq_rk_resume regs true node snap ⟨0, []⟩ =
      some (0,
        { reads := 2 + pll_lock_poll_reads regs 24000000 2,
          trace := [IoEvent.readl 0x0000, IoEvent.readl 0x0004] ++
            (if rate_old ≤ rate_new then clksel_restore_events snap else []) ++
            [IoEvent.writel 0x00800080 0x0044] ++ apll_write_events snap ++
            List.replicate (pll_lock_poll_reads regs 24000000 2) (IoEvent.readl 0x0004) ++
            [IoEvent.writel 0x00800000 0x0044] ++
            (if rate_old > rate_new then clksel_restore_events snap else []) ++
            (if node = true then [IoEvent.clk_enable_dvfs] else []) }) := by
  have hrange : List.range 3 = [0, 1, 2] := by decide
  unfold cpufreq_rk_resume
  simp only [readl_relaxed, if_true, Nat.zero_add, hold, hnew, hrange, List.foldl_cons,
    List.foldl_nil, List.nil_append]
  rw [pll_lock_poll_eq]
  by_cases h : rate_old ≤ rate_new
  · have h' : ¬ rate_old > rate_new := not_lt.mpr h
    cases node <;>
      simp [h, h', restore_clksel, writel_relaxed, clksel_restore_events, apll_write_events]
  · have h' : rate_old > rate_new := not_le.mp h
    cases node <;>
      simp [h, h', restore_clksel, writel_relaxed, clksel_restore_events, apll_write_events]

/-- C7: in `cpufreq_rk_resume` under the collapse condition, with `rate_old` computed
from the live PLL words and `rate_new` from the snapshot: if `rate_new ≥ rate_old` the
clock-select restoration (snapshot words 0 and 1 to 0x44 and 0x48) comes before the
first PLL-control write and is not repeated; if `rate_new < rate_old` it comes only after
the PLL-control writes, the lock poll and the switch back to the primary PLL path. In
both cases offset 0x48 is written exactly once. -/
theorem resume_clksel_order (regs : Nat → Nat → Nat) (node : Bool) (snap : Snapshot)
    (rate_old rate_new : Nat)
    (hold : apll_rate (regs 0 0x0000 % 2 ^ 32) (regs 1 0x0004 % 2 ^ 32) = some rate_old)
    (hnew : apll_rate (snap.cru_apll_con 0) (snap.cru_apll_con 1) = some rate_new) :
    ∃ m, cpufreq_rk_resume regs true node snap ⟨0, []⟩ = some (0, m) ∧
      (rate_new ≥ rate_old →
        m.trace = [IoEvent.readl 0x0000, IoEvent.readl 0x0004] ++
          clksel_restore_events snap ++
          [IoEvent.writel 0x00800080 0x0044] ++ apll_write_events snap ++
          List.replicate (pll_lock_poll_reads regs 24000000 2) (IoEvent.readl 0x0004) ++
          [IoEvent.writel 0x00800000 0x0044] ++
          (if node = true then [IoEvent.clk_enable_dvfs] else [])) ∧
      (rate_new < rate_old →
        m.trace = [IoEvent.readl 0x0000, IoEvent.readl 0x0004] ++
          [IoEvent.writel 0x00800080 0x0044] ++ apll_write_events snap ++
          List.replicate (pll_lock_poll_reads regs 24000000 2) (IoEvent.readl 0x0004) ++
          [IoEvent.writel 0x00800000 0x0044] ++
          clksel_restore_events snap ++
          (if node = true then [IoEvent.clk_enable_dvfs] else [])) ∧
      List.countP (IoEvent.writes_offset 0x0048) m.trace = 1 := by
  refine ⟨_, cpufreq_rk_resume_trace regs node snap rate_old rate_new hold hnew, ?_, ?_, ?_⟩
  · intro h
    have h' : ¬ rate_old > rate_new := not_lt.mpr h
    simp only [if_pos (show rate_old ≤ rate_new from h), if_neg h', List.append_nil]
  · intro h
    have h' : ¬ rate_old ≤ rate_new := not_le.mpr h
    simp only [if_pos (show rate_old > rate_new from h), if_neg h', List.append_nil]
  · by_cases h : rate_old ≤ rate_new
    · have h' : ¬ rate_old > rate_new := not_lt.mpr h
      cases node <;>
        simp [h, h', clksel_restore_events, apll_write_events, IoEvent.writes_offset,
          List.countP_cons, List.countP_replicate]
    · have h' : rate_old > rate_new := not_le.mp h
      cases node <;>
        simp [h, h', clksel_restore_events, apll_write_events, IoEvent.writes_offset,
          List.countP_cons, List.countP_replicate]

/-- C7 (witness): the live PLL words give 816 MHz and the snapshot 1200 MHz. -/
theorem resume_clksel_order_witness :
    apll_rate (example_regs 0x2044 0x41 5 0 0x0000 % 2 ^ 32)
      (example_regs 0x2044 0x41 5 1 0x0004 % 2 ^ 32) = some 816 ∧
    apll_rate ((example_snapshot 0xffff2064 0xffff0041).cru_apll_con 0)
      ((example_snapshot 0xffff2064 0xffff0041).cru_apll_con 1) = some 1200 ∧
    ∃ m, cpufreq_rk_resume (example_regs 0x2044 0x41 5) true true
        (example_snapshot 0xffff2064 0xffff0041) ⟨0, []⟩ = some (0, m) ∧
      m.trace = [IoEvent.readl 0x0000, IoEvent.readl 0x0004] ++
          clksel_restore_events (example_snapshot 0xffff2064 0xffff0041) ++
          [IoEvent.writel 0x00800080 0x0044] ++
          apll_write_events (example_snapshot 0xffff2064 0xffff0041) ++
          List.replicate (pll_lock_poll_reads (example_regs 0x2044 0x41 5) 24000000 2)
            (IoEvent.readl 0x0004) ++
          [IoEvent.writel 0x00800000 0x0044] ++
          (if true = true then [IoEvent.clk_enable_dvfs] else []) ∧
      List.countP (IoEvent.writes_offset 0x0048) m.trace = 1 :=
  ⟨by decide, by decide,
    (resume_clksel_order (example_regs 0x2044 0x41 5) true
      (example_snapshot 0xffff2064 0xffff0041) 816 1200 (by decide) (by decide)).imp
      (fun _ h => ⟨h.1, h.2.1 (by decide), h.2.2.2⟩)⟩
/-! ## The suspend snapshot -/

/-- C8 (counterexample): every register reads back as 5; after `cpufreq_rk_suspend` the
third PLL control word of the snapshot is 5, not 5 with the upper half set. -/
theorem suspend_third_pll_word_unmasked :
    (cpufreq_rk_suspend (fun _ _ => 5) true true zero_snapshot ⟨0, []⟩).2.1.cru_apll_con 2 = 5 ∧
    (5 ||| 0xffff0000) ≠ 5 := by
  constructor <;> decide

/-- C8 (amended): after `cpufreq_rk_suspend` under the collapse condition the snapshot
holds the three PLL control words read from the offsets 0x0, 0x4 and 0x8: words 0 and 1
with the upper-half write-enable mask applied (value OR 0xffff0000), word 2 as read,
without the mask; nothing else of the snapshot is written, and the function returns 0. -/
theorem suspend_snapshot_words (regs : Nat → Nat → Nat) (node : Bool) (snap : Snapshot) :
    (cpufreq_rk_suspend regs true node snap ⟨0, []⟩).1 = 0 ∧
    (cpufreq_rk_suspend regs true node snap ⟨0, []⟩).2.1.cru_apll_con 0 =
      (regs 0 0x0000 % 2 ^ 32) ||| 0xffff0000 ∧
    (cpufreq_rk_suspend regs true node snap ⟨0, []⟩).2.1.cru_apll_con 1 =
      (regs 1 0x0004 % 2 ^ 32) ||| 0xffff0000 ∧
    (cpufreq_rk_suspend regs true node snap ⟨0, []⟩).2.1.cru_apll_con 2 =
      regs 2 0x0008 % 2 ^ 32 ∧
    (∀ i, 3 ≤ i → (cpufreq_rk_suspend regs true node snap ⟨0, []⟩).2.1.cru_apll_con i =
      snap.cru_apll_con i) ∧
    (cpufreq_rk_suspend regs true node snap ⟨0, []⟩).2.1.cru_clksel_con = snap.cru_clksel_con ∧
    (cpufreq_rk_suspend regs true node snap ⟨0, []⟩).2.2.trace =
      (if node = true then [IoEvent.clk_disable_dvfs] else []) ++
      [IoEvent.readl 0x0000, IoEvent.readl 0x0004, IoEvent.readl 0x0008] := by
  have hrange : List.range 3 = [0, 1, 2] := by decide
  unfold cpufreq_rk_suspend
  simp only [if_true, hrange, List.foldl_cons, List.foldl_nil, suspend_apll_step,
    readl_relaxed]
  refine ⟨trivial, ?_, ?_, ?_, ?_, ?_, ?_⟩
  · cases node <;> simp [Function.update]
  · cases node <;> simp [Function.update]
  · cases node <;> simp [Function.update]
  · intro i hi
    have h0 : i ≠ 0 := by omega
    have h1 : i ≠ 1 := by omega
    have h2 : i ≠ 2 := by omega
    cases node <;> simp [Function.update, h0, h1, h2]
  · trivial
  · cases node <;> simp

/-- C8 (witness): the three PLL words read back as 0x2044, 0x41 and 0x41; the snapshot
holds 0xffff2044, 0xffff0041 and, for word 2, the bare 0x41. -/
theorem suspend_snapshot_words_witness :
    (cpufreq_rk_suspend (example_regs 0x2044 0x41 5) true true zero_snapshot
      ⟨0, []⟩).2.1.cru_apll_con 0 = 0xffff2044 ∧
    (cpufreq_rk_suspend (example_regs 0x2044 0x41 5) true true zero_snapshot
      ⟨0, []⟩).2.1.cru_apll_con 1 = 0xffff0041 ∧
    (cpufreq_rk_suspend (example_regs 0x2044 0x41 5) true true zero_snapshot
      ⟨0, []⟩).2.1.cru_apll_con 2 = 0x41 :=
  have h := suspend_snapshot_words (example_regs 0x2044 0x41 5) true zero_snapshot
  ⟨h.2.1.trans (by decide), h.2.2.1.trans (by decide), h.2.2.2.1.trans (by decide)⟩

/-! ## The lock poll -/

/-- C9: under the collapse condition `cpufreq_rk_resume` returns 0 for every behaviour
of the registers: the lock poll makes at least one and at most 24,000,000 status reads
(exactly 24,000,000 when the lock bit never shows), and the events after the poll — the
switch back to the primary PLL path, the clock-select restoration when `rate_old >
rate_new`, the re-enabling of the clock node — are the same whatever the poll read. -/
theorem resume_poll_bounded (regs : Nat → Nat → Nat) (node : Bool) (snap : Snapshot)
    (rate_old rate_new : Nat)
    (hold : apll_rate (regs 0 0x0000 % 2 ^ 32) (regs 1 0x0004 % 2 ^ 32) = some rate_old)
    (hnew : apll_rate (snap.cru_apll_con 0) (snap.cru_apll_con 1) = some rate_new) :
    ∃ m n, cpufreq_rk_resume regs true node snap ⟨0, []⟩ = some (0, m) ∧
      1 ≤ n ∧ n ≤ 24000000 ∧
      ((∀ k, (regs k 0x0004 % 2 ^ 32) &&& (1 <<< 10) = 0) → n = 24000000) ∧
      m.reads = 2 + n ∧
      m.trace =
        ([IoEvent.readl 0x0000, IoEvent.readl 0x0004] ++
          (if rate_old ≤ rate_new then clksel_restore_events snap else []) ++
          [IoEvent.writel 0x00800080 0x0044] ++ apll_write_events snap) ++
        List.replicate n (IoEvent.readl 0x0004) ++
        ([IoEvent.writel 0x00800000 0x0044] ++
          (if rate_old > rate_new then clksel_restore_events snap else []) ++
          (if node = true then [IoEvent.clk_enable_dvfs] else [])) := by
  refine ⟨_, pll_lock_poll_reads regs 24000000 2,
    cpufreq_rk_resume_trace regs node snap rate_old rate_new hold hnew,
    pll_lock_poll_reads_pos regs 24000000 2 (by omega),
    pll_lock_poll_reads_le regs 24000000 2,
    fun hnever => pll_lock_poll_reads_never regs 24000000 2 hnever, rfl, ?_⟩
  simp only [List.append_assoc]

/-- C9 (witness): the lock bit never shows (every register reads 0x2044 or 0x41); the
poll stops after 24,000,000 reads and the sequence completes with return code 0. -/
theorem resume_poll_bounded_witness :
    ∃ m, cpufreq_rk_resume (fun k _ => if k = 0 then 0x2044 else 0x41) true true
        (example_snapshot 0xffff2064 0xffff0041) ⟨0, []⟩ = some (0, m) ∧
      m.reads = 2 + 24000000 :=
  match resume_poll_bounded (fun k _ => if k = 0 then 0x2044 else 0x41) true
      (example_snapshot 0xffff2064 0xffff0041) 816 1200 (by decide) (by decide) with
  | ⟨m, n, hm, _, _, hnever, hreads, _⟩ =>
    ⟨m, hm, by
      rw [hreads, hnever (fun k => by
        by_cases hk : k = 0
        · simp only [hk, if_true]; decide
        · simp only [hk, if_false]; decide)]⟩

/-! ## Gate updates and failing calls -/

/-- A call that is not denied passed the Enable step with the counter at 0. -/
theorem gate_open_of_not_denied (env : Collaborators) (s : DriverState)
    (policy : Option cpufreq_policy) (target_freq relation : Nat)
    (table : List cpufreq_frequency_table) (htab : s.freq_table = some table)
    (hpass : (cpufreq_target env s policy target_freq relation).exit ≠ Exit.denied) :
    (if carries_enable relation ∧ s.no_cpufreq_access ≠ 0
      then s.no_cpufreq_access - 1 else s.no_cpufreq_access) = 0 := by
  by_contra hclosed
  apply hpass
  rw [cpufreq_target_denied env s policy target_freq relation table htab hclosed]

/-- C11: the gate update of `cpufreq_target` is made before the table search and the
rate set and is never undone: for every request that reaches the gate and is not denied,
whatever the table search and the rate setter answer, the counter afterwards is 1 (gate
closed) when the request carries Disable and 0 (gate open) when it does not, as for a
request carrying Enable that has just opened the gate; this holds when the table search
fails (the call returns its error code by the no-match exit) and when the rate setter
fails (the call returns the setter's error code). -/
theorem gate_update_not_rolled_back (c : Call) (s : DriverState)
    (table : List cpufreq_frequency_table) (htab : s.freq_table = some table)
    (hpass : (c.run s).exit ≠ Exit.denied) :
    (carries_disable c.relation → (c.run s).state.no_cpufreq_access = 1) ∧
    (¬ carries_disable c.relation → (c.run s).state.no_cpufreq_access = 0) ∧
    ((c.env.table_target c.target_freq (search_relation c.relation)).1 ≠ 0 →
      (c.run s).exit = Exit.no_match ∧
      (c.run s).ret = (c.env.table_target c.target_freq (search_relation c.relation)).1) ∧
    ((c.env.table_target c.target_freq (search_relation c.relation)).1 = 0 →
      ((c.run s).new_freq * 1000) % 2 ^ 32 ≠ s.clk.rate % 2 ^ 32 →
      (c.run s).exit = Exit.rate_set ∧
      (c.run s).ret =
        (c.env.dvfs_clk_set_rate s.clk (((c.run s).new_freq * 1000) % 2 ^ 32)).2) := by
  unfold Call.run at hpass ⊢
  have hopen := gate_open_of_not_denied c.env s c.policy c.target_freq c.relation table
    htab hpass
  have hcount := (cpufreq_target_passed c.env s c.policy c.target_freq c.relation table
    htab hopen).2
  have hopen' : ¬ gate_after_enable c.relation s.no_cpufreq_access ≠ 0 := by
    unfold gate_after_enable
    exact not_not.mpr hopen
  refine ⟨?_, ?_, ?_, ?_⟩
  · intro hd
    rw [hcount, if_pos hd]
  · intro hd
    rw [hcount, if_neg hd]
  · intro hfail
    rw [cpufreq_target_steps c.env s c.policy c.target_freq c.relation table htab,
      if_neg hopen', if_pos hfail]
    exact ⟨rfl, rfl⟩
  · intro hfound
    rw [cpufreq_target_steps c.env s c.policy c.target_freq c.relation table htab,
      if_neg hopen', if_neg (not_not.mpr hfound)]
    intro hrate
    split_ifs at hrate ⊢ with h3 h4 h5
    · exact absurd h4 hrate
    · exact ⟨rfl, rfl⟩
    · exact absurd h5 hrate
    · exact ⟨rfl, rfl⟩

/-- C11 (witness): on the default table a request carrying Disable whose table search
fails returns `-EINVAL` and leaves the gate closed; on the closed gate a request carrying
Enable whose rate set fails returns `-EINVAL` and leaves the gate open. -/
theorem gate_update_not_rolled_back_witness :
    ((Call.mk no_match_env (policy_of "interactive") 2000000 0x10).run
      (initial_state 0xFFFFFFFE ⟨1608000000, []⟩)).ret = -EINVAL ∧
    ((Call.mk no_match_env (policy_of "interactive") 2000000 0x10).run
      (initial_state 0xFFFFFFFE ⟨1608000000, []⟩)).state.no_cpufreq_access = 1 ∧
    ((Call.mk (set_rate_failure_env 4) (policy_of "interactive") 1200000 0x21).run
      (run_calls (initial_state 0xFFFFFFFE ⟨1608000000, []⟩)
        [example_call 2 0x11])).ret = -EINVAL ∧
    ((Call.mk (set_rate_failure_env 4) (policy_of "interactive") 1200000 0x21).run
      (run_calls (initial_state 0xFFFFFFFE ⟨1608000000, []⟩)
        [example_call 2 0x11])).state.no_cpufreq_access = 0 :=
  have h1 := gate_update_not_rolled_back
    (Call.mk no_match_env (policy_of "interactive") 2000000 0x10)
    (initial_state 0xFFFFFFFE ⟨1608000000, []⟩) (default_freq_table 0xFFFFFFFE) rfl
    (by decide)
  have h2 := gate_update_not_rolled_back
    (Call.mk (set_rate_failure_env 4) (policy_of "interactive") 1200000 0x21)
    (run_calls (initial_state 0xFFFFFFFE ⟨1608000000, []⟩) [example_call 2 0x11])
    (default_freq_table 0xFFFFFFFE) rfl (by decide)
  ⟨(h1.2.2.1 (by decide)).2, h1.1 (by decide),
   ((h2.2.2.2 (by decide) (by decide)).2).trans (by decide), h2.2.1 (by decide)⟩

end RockchipCpufreq
